import Mathlib

/-
  Verification of the TikTok-Ads agent core against its specification.

  Shallow embedding of the repository sources:
    agent.py          : AdConfig (pydantic model + validators), LLMClient,
                        ConversationManager (orchestrator)
    mock_api.py       : MockTikTokAPI, ErrorInterpreter
    src/agent.py      : AdAgent (second agent variant, retry-on-schema-error)
    src/api_real.py   : RealTikTokAPI (ensure_token, submit_ad retry loop)
    src/api_mock.py   : the second mock capability
    src/ui.py         : chat_interface submit pre-check (context only)

  Machine integers do not occur on the verified paths; Python string lengths
  and times are modelled as Nat / Int.  External effects (the language model,
  the network, random draws) are modelled as oracle parameters supplied to
  each run, and exceptions as explicit Except / sum results.
-/

namespace TikTokAds

/-- Python truthiness of an optional string: None and the empty string are
falsy, every other string is truthy. -/
def pyTruthy : Option String → Bool
  | none => false
  | some s => !(s == "")

/-- Python str.startswith on character lists (s starts with pre). -/
def startsWithL (s pre : List Char) : Bool :=
  match pre, s with
  | [], _ => true
  | _ :: _, [] => false
  | p :: ps, c :: cs => c == p && startsWithL cs ps

/-- Python str.startswith. -/
def pyStartsWith (s pre : String) : Bool :=
  startsWithL s.data pre.data

/-- Substring containment on character lists (Python substring test). -/
def hasSubL : List Char → List Char → Bool
  | [], sub => sub.isEmpty
  | s@(_ :: t), sub => startsWithL s sub || hasSubL t sub

/-- Python substring containment: sub in s. -/
def pyContains (s sub : String) : Bool :=
  hasSubL s.data sub.data

/-- The last segment of a Python str.split(sep) result ([-1] indexing). -/
def lastSegment (sep s : String) : String :=
  (s.splitOn sep).getLastD s

/-- Python whitespace as stripped by str.strip(). -/
def isPySpace (c : Char) : Bool :=
  c == ' ' || c == '\t' || c == '\n' || c == '\r' || c == '\x0b' || c == '\x0c'

/-- Python str.strip(): drop leading and trailing whitespace. -/
def pyStrip (s : String) : String :=
  String.mk (((s.data.dropWhile isPySpace).reverse.dropWhile isPySpace).reverse)

instance {ε α : Type} [DecidableEq ε] [DecidableEq α] : DecidableEq (Except ε α) := fun x y =>
  match x, y with
  | .ok a, .ok b => decidable_of_iff (a = b) (by simp)
  | .error a, .error b => decidable_of_iff (a = b) (by simp)
  | .ok _, .error _ => isFalse (by simp)
  | .error _, .ok _ => isFalse (by simp)

-- ===========================================================================
-- agent.py : AdConfig — pydantic data model with business-rule validators
-- ===========================================================================

/-- One pydantic validation error: the field it concerns (the error location)
and its message. -/
structure FieldError where
  loc : String
  msg : String
deriving Repr, DecidableEq

/-- A validated AdConfig instance (agent.py lines 25-98). -/
structure AdConfig where
  campaign_name : String
  objective : String
  ad_text : String
  cta : String
  music_id : Option String
deriving Repr, DecidableEq

/-- The raw keyword arguments of AdConfig(**kwargs).  A field whose key is
absent from the dict is none.  music_id distinguishes an absent key (none)
from an explicitly supplied null (some none): pydantic treats the two
differently. -/
structure AdConfigInput where
  campaign_name : Option String
  objective : Option String
  ad_text : Option String
  cta : Option String
  music_id : Option (Option String)
deriving Repr, DecidableEq

/-- pydantic builtin constraint from Field min_length (its v1 message). -/
def anystr_min_length (limit : Nat) (v : String) : Except String String :=
  if v.length < limit then
    .error ("ensure this value has at least " ++ toString limit ++ " characters")
  else .ok v

/-- pydantic builtin constraint from Field max_length (its v1 message). -/
def anystr_max_length (limit : Nat) (v : String) : Except String String :=
  if v.length > limit then
    .error ("ensure this value has at most " ++ toString limit ++ " characters")
  else .ok v

/-- agent.py validate_campaign_name: trim, then require at least 3 chars;
the trimmed value is stored. -/
def validate_campaign_name (v : String) : Except String String :=
  let v := pyStrip v
  if v.length < 3 then .error "Campaign name must be at least 3 characters"
  else .ok v

/-- agent.py validate_objective: the objective must be one of the two
case-sensitive literals. -/
def validate_objective (v : String) : Except String String :=
  if ¬ (v = "Traffic" ∨ v = "Conversions") then
    .error "Objective must be \x27Traffic\x27 or \x27Conversions\x27"
  else .ok v

/-- agent.py validate_ad_text: reject text longer than 100 characters with a
message naming the current length.  (The Field max_length=100 constraint runs
before this validator, so this branch is unreachable in the composed model.) -/
def validate_ad_text (v : String) : Except String String :=
  if v.length > 100 then
    .error ("Ad text cannot exceed 100 characters (current: " ++ toString v.length ++ ")")
  else .ok v

/-- agent.py validate_music_logic: values_objective is values.get("objective"),
i.e. the objective only when its own validation succeeded.  The first branch
fires when the objective is Conversions and the value is falsy (None or empty
string); the second when a supplied value is blank after trimming. -/
def validate_music_logic (v : Option String) (values_objective : Option String) :
    Except String (Option String) :=
  if values_objective = some "Conversions" ∧ pyTruthy v = false then
    .error ("Music is REQUIRED when objective is \x27Conversions\x27. " ++
      "Please provide a music ID or upload custom music.")
  else
    match v with
    | some s => if (pyStrip s).length = 0 then .error "Music ID cannot be empty" else .ok v
    | none => .ok v

/-- The errors contributed by one field result. -/
def fieldErrors {α : Type} : Except FieldError α → List FieldError
  | .error e => [e]
  | .ok _ => []

/-- pydantic validation of AdConfig(**kwargs), mirroring pydantic
validate_model: fields are processed in declaration order and errors from all
fields are collected; within one field the Field(...) constraints run before
the class validators and the chain stops at that field on the first error.
A field that is not supplied takes its default without running any validator
(no validator here sets always=True); an explicitly supplied None for the
Optional music_id field does run the class validator.  The values dict seen
by validate_music_logic holds only previously validated fields. -/
def AdConfigValidate (inp : AdConfigInput) : Except (List FieldError) AdConfig :=
  let cn : Except FieldError String :=
    match inp.campaign_name with
    | none => .error ⟨"campaign_name", "field required"⟩
    | some v =>
      match anystr_min_length 3 v with
      | .error e => .error ⟨"campaign_name", e⟩
      | .ok v =>
        match validate_campaign_name v with
        | .error e => .error ⟨"campaign_name", e⟩
        | .ok v => .ok v
  let ob : Except FieldError String :=
    match inp.objective with
    | none => .error ⟨"objective", "field required"⟩
    | some v =>
      match validate_objective v with
      | .error e => .error ⟨"objective", e⟩
      | .ok v => .ok v
  let adt : Except FieldError String :=
    match inp.ad_text with
    | none => .error ⟨"ad_text", "field required"⟩
    | some v =>
      match anystr_max_length 100 v with
      | .error e => .error ⟨"ad_text", e⟩
      | .ok v =>
        match validate_ad_text v with
        | .error e => .error ⟨"ad_text", e⟩
        | .ok v => .ok v
  let ct : Except FieldError String :=
    match inp.cta with
    | none => .error ⟨"cta", "field required"⟩
    | some v => .ok v
  let values_objective : Option String := match ob with | .ok v => some v | .error _ => none
  let mus : Except FieldError (Option String) :=
    match inp.music_id with
    | none => .ok none
    | some v =>
      match validate_music_logic v values_objective with
      | .error e => .error ⟨"music_id", e⟩
      | .ok v => .ok v
  match cn, ob, adt, ct, mus with
  | .ok a, .ok b, .ok c, .ok d, .ok e => .ok ⟨a, b, c, d, e⟩
  | _, _, _, _, _ =>
    .error (fieldErrors cn ++ fieldErrors ob ++ fieldErrors adt ++ fieldErrors ct ++ fieldErrors mus)

-- ===========================================================================
-- mock_api.py : ErrorInterpreter
-- ===========================================================================

/-- One row of the ErrorInterpreter table. -/
structure ErrorInfo where
  explanation : String
  action : String
  retryable : Bool
  severity : String
deriving Repr, DecidableEq

/-- The default row returned by ERRORS.get for an unmapped code. -/
def defaultErrorInfo (error_code : String) : ErrorInfo :=
  { explanation := "An unexpected error occurred: " ++ error_code
    action := "Please try again. If the issue persists, contact support."
    retryable := true
    severity := "medium" }

/-- mock_api.py ErrorInterpreter.interpret: ERRORS.get(error_code, default).
The dict lookup is rendered as a chain over the five fixed keys. -/
def interpret (error_code : String) : ErrorInfo :=
  if error_code = "INVALID_TOKEN" then
    { explanation := "Your TikTok access token has expired or is invalid."
      action := "I\x27ll attempt to refresh your token automatically. If this fails, you\x27ll need to re-authenticate with TikTok."
      retryable := true
      severity := "medium" }
  else if error_code = "INSUFFICIENT_PERMISSIONS" then
    { explanation := "Your TikTok app doesn\x27t have the required permissions to create ads."
      action := "Please go to TikTok Developer Portal → Your App → Permissions and enable \x27Ads Management\x27 scope, then re-authenticate."
      retryable := false
      severity := "high" }
  else if error_code = "MUSIC_NOT_FOUND" then
    { explanation := "The music ID you provided doesn\x27t exist in TikTok\x27s library or has been removed."
      action := "Would you like to: 1) Try a different music ID, 2) Upload your own music, or 3) Proceed without music (if your objective allows)?"
      retryable := false
      severity := "low" }
  else if error_code = "INVALID_MUSIC_ID" then
    { explanation := "This music track cannot be used for TikTok ads, possibly due to licensing restrictions."
      action := "Please choose a different music track from TikTok\x27s library or upload your own music with proper licensing."
      retryable := false
      severity := "medium" }
  else if error_code = "GEO_RESTRICTED" then
    { explanation := "This feature is not available in your geographical region."
      action := "Unfortunately, TikTok Ads API has regional restrictions. You may need to use a different account or contact TikTok Business support."
      retryable := false
      severity := "high" }
  else defaultErrorInfo error_code

-- ===========================================================================
-- agent.py : LLMClient.get_response and ConversationManager
-- ===========================================================================

/-- One entry of the conversation history. -/
structure Message where
  role : String
  content : String
deriving Repr, DecidableEq

/-- The orchestrator ad_config dict.  A key is present iff its field is some;
process_message only ever stores non-null values, so present values carry a
plain string. -/
structure CMConfig where
  campaign_name : Option String
  objective : Option String
  ad_text : Option String
  cta : Option String
  music_id : Option String
deriving Repr, DecidableEq

/-- A state delta proposed by the language model.  For each configuration
field: none = key absent from the dict, some none = key present with value
null, some (some v) = key present with string value v. -/
structure StateDelta where
  campaign_name : Option (Option String)
  objective : Option (Option String)
  ad_text : Option (Option String)
  cta : Option (Option String)
  music_id : Option (Option String)
deriving Repr, DecidableEq

/-- The all-absent delta (an empty state dict). -/
def emptyDelta : StateDelta := ⟨none, none, none, none, none⟩

/-- agent.py process_message state update for one field: only a present
non-null delta value overwrites (if value is not None: ad_config[key] = value);
null and absent entries are skipped. -/
def mergeValue (old : Option String) : Option (Option String) → Option String
  | some (some v) => some v
  | _ => old

/-- agent.py process_message lines 366-371: field-wise state merge. -/
def mergeState (cfg : CMConfig) (d : StateDelta) : CMConfig :=
  { campaign_name := mergeValue cfg.campaign_name d.campaign_name
    objective := mergeValue cfg.objective d.objective
    ad_text := mergeValue cfg.ad_text d.ad_text
    cta := mergeValue cfg.cta d.cta
    music_id := mergeValue cfg.music_id d.music_id }

/-- The parsed arguments of the function call returned by the LLM.  message
and action may be absent from the parsed JSON (the orchestrator accesses them
dynamically); the remaining keys are filled with defaults by get_response. -/
structure RespDict where
  message : Option String
  reasoning : Option String
  state : Option StateDelta
  action : Option String
  errors : Option (List String)
deriving Repr, DecidableEq

/-- The outcome of the LLM exchange inside LLMClient.get_response: either a
parsed result dict or a raised exception with message e. -/
inductive LLMRaw
  | ok (r : RespDict)
  | raises (e : String)
deriving Repr, DecidableEq

/-- The ad_config dict rendered as the state object of the fallback response
(each present key keeps its non-null value). -/
def CMConfig.toDelta (c : CMConfig) : StateDelta :=
  ⟨c.campaign_name.map some, c.objective.map some, c.ad_text.map some,
   c.cta.map some, c.music_id.map some⟩

/-- agent.py LLMClient.get_response: on success fill the optional keys with
defaults; on any exception return the fallback response (apology message,
action collect, state echoing the current configuration) — the failure is
never re-raised. -/
def get_response (context : CMConfig) (raw : LLMRaw) : RespDict :=
  match raw with
  | .ok r =>
    { message := r.message
      reasoning := some (r.reasoning.getD "No reasoning provided")
      state := some (r.state.getD emptyDelta)
      action := r.action
      errors := some (r.errors.getD []) }
  | .raises e =>
    { message := some ("I apologize, but I encountered an error: " ++ e ++ ". Let\x27s try again.")
      reasoning := some ("LLM error: " ++ e)
      state := some context.toDelta
      action := some "collect"
      errors := some [e] }

/-- Data of a successful validate_music_id capability response. -/
structure MusicData where
  music_id : String
  title : String
  artist : String
  duration : Nat
  genre : String
deriving Repr, DecidableEq

/-- Data of a successful upload_music capability response. -/
structure UploadData where
  music_id : String
  title : String
  status : String
  duration : Nat
deriving Repr, DecidableEq

/-- Data of a successful create_ad capability response. -/
structure CreateData where
  ad_id : String
  campaign_id : String
  status : String
  created_at : String
  campaign_name : String
  objective : String
deriving Repr, DecidableEq

/-- Outcome of one capability call made by the orchestrator: a success dict,
a failure dict carrying an error_code, or a raised exception. -/
inductive CallOutcome (α : Type)
  | ok (data : α)
  | err (error_code : String)
  | exn (e : String)
deriving Repr, DecidableEq

/-- The capability responses available to one orchestrator turn (at most one
call of each kind can happen per turn). -/
structure ApiEnv where
  validateResp : CallOutcome MusicData
  uploadResp : CallOutcome UploadData
  createResp : CallOutcome CreateData

/-- Which capability calls a turn performed. -/
structure CallCounts where
  validateCalls : Nat
  uploadCalls : Nat
  createCalls : Nat
deriving Repr, DecidableEq

def noCalls : CallCounts := ⟨0, 0, 0⟩

/-- Formatting shared by the orchestrator error branches: explanation plus
suggested action from the Error Classifier. -/
def formatInterpreted (error_code : String) : String :=
  let error := interpret error_code
  "❌ **" ++ error.explanation ++ "**\n\n💡 " ++ error.action

/-- agent.py ConversationManager._validate_music.  The Except error carries a
raised exception (the method itself has no handler, so an api exception
propagates to process_message). -/
def validateMusicAction (cfg : CMConfig) (env : ApiEnv) :
    Except String String × CallCounts :=
  if pyTruthy cfg.music_id = false then
    (.ok "⚠️ Please provide a music ID to validate.", noCalls)
  else
    match env.validateResp with
    | .ok data =>
      (.ok ("✅ Music validated successfully!\n\n🎵 **Track**: " ++ data.title ++
        "\n🎤 **Artist**: " ++ data.artist ++
        "\n⏱️ **Duration**: " ++ toString data.duration ++ "s\n\n" ++
        "Great choice! Now, what would you like your ad text to say? (Max 100 characters)"),
        ⟨1, 0, 0⟩)
    | .err code => (.ok (formatInterpreted code), ⟨1, 0, 0⟩)
    | .exn e => (.error e, ⟨1, 0, 0⟩)

/-- agent.py ConversationManager._upload_music: on success the returned
music_id is stored into ad_config. -/
def uploadMusicAction (cfg : CMConfig) (env : ApiEnv) :
    Except String String × CMConfig × CallCounts :=
  match env.uploadResp with
  | .ok data =>
    (.ok ("✅ Music uploaded successfully!\n\n🎵 **Music ID**: " ++ data.music_id ++
      "\n📁 **File**: " ++ data.title ++
      "\n✨ **Status**: " ++ data.status ++ "\n\n" ++
      "Excellent! Now let\x27s create your ad text. What message would you like to convey? (Max 100 characters)"),
      { cfg with music_id := some data.music_id }, ⟨0, 1, 0⟩)
  | .err code => (.ok (formatInterpreted code), cfg, ⟨0, 1, 0⟩)
  | .exn e => (.error e, cfg, ⟨0, 1, 0⟩)

/-- Rendering of str(pydantic.ValidationError): a header naming the error
count followed by one block per error.  Claims depend only on which
violations occur, not on this layout. -/
def validationErrorStr (errs : List FieldError) : String :=
  toString errs.length ++ " validation error" ++ (if errs.length = 1 then "" else "s") ++
    " for AdConfig" ++ String.join (errs.map (fun e => "\n" ++ e.loc ++ "\n  " ++ e.msg))

/-- The ad_config dict as the keyword arguments of AdConfig(**self.ad_config):
keys are present exactly when set, and present values are never null. -/
def CMConfig.toInput (c : CMConfig) : AdConfigInput :=
  ⟨c.campaign_name, c.objective, c.ad_text, c.cta, c.music_id.map some⟩

/-- agent.py ConversationManager._submit_ad: validate with pydantic, then call
create_ad; its own try/except converts the pydantic ValidationError and any
other exception into a returned message, so this action never raises. -/
def submitAdAction (cfg : CMConfig) (env : ApiEnv) : String × CallCounts :=
  match AdConfigValidate cfg.toInput with
  | .error errs =>
    ("❌ **Validation Failed**\n\n**Issue**: " ++ validationErrorStr errs ++
      "\n\nPlease provide the correct information and I\x27ll help you fix this.", noCalls)
  | .ok _ =>
    match env.createResp with
    | .ok data =>
      ("🎉 **SUCCESS! Your TikTok ad has been created!**\n\n📊 **Ad ID**: " ++ data.ad_id ++
        "\n📊 **Campaign ID**: " ++ data.campaign_id ++
        "\n📊 **Status**: " ++ data.status ++
        "\n📅 **Created**: " ++ data.created_at ++
        "\n\n**Campaign Details:**\n- Name: " ++ data.campaign_name ++
        "\n- Objective: " ++ data.objective ++
        "\n\nYour ad is now pending review by TikTok. You\x27ll be notified once it\x27s approved!\n\n" ++
        "Would you like to create another ad? Just say \x27yes\x27 or \x27new campaign\x27!",
        ⟨0, 0, 1⟩)
    | .err code =>
      let error := interpret code
      let retry_msg := if error.retryable then "\n\nWould you like me to retry the submission?" else ""
      ("❌ **Submission Failed**\n\n**Issue**: " ++ error.explanation ++
        "\n\n💡 **What to do**: " ++ error.action ++ retry_msg, ⟨0, 0, 1⟩)
    | .exn e =>
      ("❌ An unexpected error occurred: " ++ e ++ "\n\nPlease try again.", ⟨0, 0, 1⟩)

/-- The body of the try block of ConversationManager.process_message, from the
LLM call to the dispatched action.  Returns the final agent message (or, as
Except error, an uncaught exception message), the configuration as mutated so
far, and the capability calls made.  A missing message key raises
KeyError(\x27message\x27) before the state merge. -/
def tryBody (cfg : CMConfig) (llm : LLMRaw) (env : ApiEnv) :
    Except String String × CMConfig × CallCounts :=
  let response := get_response cfg llm
  match response.message with
  | none => (.error "\x27message\x27", cfg, noCalls)
  | some agent_msg =>
    let action := response.action.getD "collect"
    let cfg := match response.state with
      | some st => mergeState cfg st
      | none => cfg
    if action = "validate_music" then
      let r := validateMusicAction cfg env
      (r.1, cfg, r.2)
    else if action = "upload_music" then
      uploadMusicAction cfg env
    else if action = "submit" then
      let r := submitAdAction cfg env
      (.ok r.1, cfg, r.2)
    else (.ok agent_msg, cfg, noCalls)

/-- The orchestrator state: conversation history plus ad configuration. -/
structure CMState where
  messages : List Message
  ad_config : CMConfig
deriving Repr, DecidableEq

/-- agent.py ConversationManager.process_message: append the user message,
run the try body, and on either path append exactly one assistant message
(the agent message, or the apology built from a caught exception) and return
it. -/
def process_message (cm : CMState) (user_msg : String) (llm : LLMRaw) (env : ApiEnv) :
    String × CMState × CallCounts :=
  let messages1 := cm.messages ++ [⟨"user", user_msg⟩]
  match tryBody cm.ad_config llm env with
  | (.ok agent_msg, cfg, counts) =>
    (agent_msg, ⟨messages1 ++ [⟨"assistant", agent_msg⟩], cfg⟩, counts)
  | (.error e, cfg, counts) =>
    let error_msg := "I apologize, but I encountered an error: " ++ e ++ ". Could you please try again?"
    (error_msg, ⟨messages1 ++ [⟨"assistant", error_msg⟩], cfg⟩, counts)

-- ===========================================================================
-- src/agent.py : AdAgent — second agent variant
-- ===========================================================================

/-- src/agent.py AdAgent.process_message state merge, over a generic dict
from keys to JSON values (modelled as nullable strings): every key present in
updated_ad_state overwrites, including keys carrying an explicit null; only
absent keys are no-ops (for k, v in new_state.items(): collected_data[k] = v,
with no null check). -/
def agentMerge (data delta : String → Option (Option String)) : String → Option (Option String) :=
  fun k => match delta k with
  | none => data k
  | some v => some v

/-- The response dict the AdAgent returns to its caller. -/
structure AgentResp where
  thought : String
  message_to_user : String
  action : String
deriving Repr, DecidableEq

/-- Outcome of one generate_content call followed by text extraction and
parsing, as seen by AdAgent.process_message:
raises    — the model call raised, or no usable text was extracted
            (both surface as an exception with message e);
malformed — json.loads raised (JSONDecodeError, message e), which the
            jsonschema ValidationError handler does not catch;
schemaInvalid — the JSON parsed but jsonschema.validate raised
            ValidationError e;
valid     — a response obeying the schema. -/
inductive LMOut
  | raises (e : String)
  | malformed (e : String)
  | schemaInvalid (e : String)
  | valid (d : AgentResp)
deriving Repr, DecidableEq

/-- The fallback dict built by the generic exception handler of
AdAgent.process_message. -/
def agentGenericFallback (e : String) : AgentResp :=
  ⟨"Fail", "System Error: " ++ e, "NONE"⟩

/-- The fallback dict built when the retried call fails schema validation
again. -/
def agentValidationFallback : AgentResp :=
  ⟨"Fail", "System Error: Output Validation Failed.", "NONE"⟩

/-- The system context string appended for the single retry after a schema
validation error. -/
def retryContext (e : String) : String :=
  "JSON Schema Error: " ++ e ++ ". Retry with valid JSON."

/-- src/agent.py AdAgent.process_message error-recovery flow.  out1 is the
outcome of the first model call; out2 maps the retry system context to the
outcome of the retried call.  Returns the response dict handed to the caller
and the number of retries performed.  A ValidationError on the first call
triggers exactly one recursive call with retry=True and the schema error
appended to the context; on the retried call a second ValidationError yields
the validation fallback, and any other exception (including JSONDecodeError
from malformed text) is absorbed by the generic handler — nothing is
re-raised. -/
def adAgentProcess (out1 : LMOut) (out2 : String → LMOut) : AgentResp × Nat :=
  match out1 with
  | .valid d => (d, 0)
  | .malformed e => (agentGenericFallback e, 0)
  | .raises e => (agentGenericFallback e, 0)
  | .schemaInvalid e =>
    match out2 (retryContext e) with
    | .valid d => (d, 1)
    | .schemaInvalid _ => (agentValidationFallback, 1)
    | .malformed e2 => (agentGenericFallback e2, 1)
    | .raises e2 => (agentGenericFallback e2, 1)

-- ===========================================================================
-- src/api_real.py : RealTikTokAPI — credential handling and submit retry
-- ===========================================================================

/-- The credential state of the live capability. -/
structure TokenState where
  access_token : Option String
  refresh_token : Option String
  expires_at : Int
deriving Repr, DecidableEq

/-- Outcome of one network refresh exchange: code 0 with fresh token data, or
anything else (non-zero code or raised exception), which makes
refresh_access_token return False. -/
inductive RefreshOutcome
  | ok (access_token : String) (refresh_token : Option String) (expires_in : Int)
  | fail
deriving Repr, DecidableEq

/-- src/api_real.py save_token: store the tokens and stamp the expiry
time.time() + expires_in. -/
def save_token (now : Int) (access_token : String) (refresh_token : Option String)
    (expires_in : Int) : TokenState :=
  ⟨some access_token, refresh_token, now + expires_in⟩

/-- src/api_real.py refresh_access_token: returns False immediately when no
refresh token is stored; otherwise performs the exchange and on code 0 saves
the new tokens and returns True, on any failure returns False with the state
unchanged. -/
def refresh_access_token (st : TokenState) (now : Int) (o : RefreshOutcome) :
    Bool × TokenState :=
  match st.refresh_token with
  | none => (false, st)
  | some _ =>
    match o with
    | .ok a r e => (true, save_token now a r e)
    | .fail => (false, st)

/-- Result of ensure_token. -/
inductive EnsureStatus
  | success
  | error (code : Int) (message : String)
deriving Repr, DecidableEq

/-- src/api_real.py ensure_token: Success at once when a truthy access token
exists and the current time is strictly inside the 5-minute (300 s) buffer
before expiry; otherwise one refresh_access_token call decides the result.
Returns the status, the resulting token state, and how many
refresh_access_token calls were made. -/
def ensure_token (st : TokenState) (now : Int) (o : RefreshOutcome) :
    EnsureStatus × TokenState × Nat :=
  if pyTruthy st.access_token = true ∧ now < st.expires_at - 300 then
    (.success, st, 0)
  else
    let r := refresh_access_token st now o
    if r.1 then (.success, r.2, 1)
    else (.error 401 "Session expired. Please reconnect TikTok.", r.2, 1)

/-- Outcome of one requests.post to the ad-create endpoint: a parsed JSON
response carrying code (with data.ad_id used when code = 0) and message, or a
raised exception. -/
inductive PostOutcome
  | resp (code : Int) (ad_id : String) (message : String)
  | exn (e : String)
deriving Repr, DecidableEq

/-- The oracles of one submit_ad run: the current time and the outcomes of
the n-th refresh exchange and the n-th ad-create post. -/
structure SubmitEnv where
  now : Int
  refreshOutcomes : Nat → RefreshOutcome
  postOutcomes : Nat → PostOutcome

/-- The mutable state threaded through one submit_ad run. -/
structure SubmitRun where
  tok : TokenState
  refreshCalls : Nat
  postCalls : Nat
deriving Repr, DecidableEq

/-- One refresh_access_token call inside submit_ad, consuming the next
refresh outcome. -/
def doRefresh (env : SubmitEnv) (s : SubmitRun) : Bool × SubmitRun :=
  let r := refresh_access_token s.tok env.now (env.refreshOutcomes s.refreshCalls)
  (r.1, { tok := r.2, refreshCalls := s.refreshCalls + 1, postCalls := s.postCalls })

/-- One ensure_token call inside submit_ad (its internal refresh, when taken,
consumes the next refresh outcome). -/
def doEnsure (env : SubmitEnv) (s : SubmitRun) : EnsureStatus × SubmitRun :=
  let r := ensure_token s.tok env.now (env.refreshOutcomes s.refreshCalls)
  (r.1, { tok := r.2.1, refreshCalls := s.refreshCalls + r.2.2, postCalls := s.postCalls })

/-- Result of submit_ad (the code is absent in the results built from a
raised exception and from loop exhaustion). -/
inductive SubmitResult
  | success (ad_id : String)
  | error (code : Option Int) (message : String)
deriving Repr, DecidableEq

/-- One iteration of the submit_ad retry loop (src/api_real.py lines
146-169), for attempt 0 or 1.  none in the first component means the Python
continue: run the next iteration on the returned state.
- ensure_token failure on attempt 0 forces one refresh: continue on success,
  return the auth error otherwise; on attempt 1 the auth error is returned.
- a posted response with code 0 returns Success with the ad id.
- code 401 on attempt 0 refreshes once: continue on success, otherwise the
  error is returned; any other non-zero code is returned at once.
- a post exception on attempt 1 is returned as an error; on attempt 0 it is
  swallowed and the loop continues. -/
def submitBody (env : SubmitEnv) (attempt : Nat) (s : SubmitRun) :
    Option SubmitResult × SubmitRun :=
  let a := doEnsure env s
  match a.1 with
  | .error c m =>
    if attempt = 0 then
      let r := doRefresh env a.2
      if r.1 then (none, r.2) else (some (.error (some c) m), r.2)
    else (some (.error (some c) m), a.2)
  | .success =>
    let s1 : SubmitRun :=
      { tok := a.2.tok, refreshCalls := a.2.refreshCalls, postCalls := a.2.postCalls + 1 }
    match env.postOutcomes a.2.postCalls with
    | .resp code ad_id msg =>
      if code = 0 then (some (.success ad_id), s1)
      else if code = 401 ∧ attempt = 0 then
        let r := doRefresh env s1
        if r.1 then (none, r.2) else (some (.error (some code) msg), r.2)
      else (some (.error (some code) msg), s1)
    | .exn e =>
      if attempt = 1 then (some (.error none e), s1) else (none, s1)

/-- src/api_real.py submit_ad: for attempt in range(2) around submitBody,
with the Max-retries result if both iterations ask to continue. -/
def submit_ad (env : SubmitEnv) (tok : TokenState) : SubmitResult × SubmitRun :=
  let s0 : SubmitRun := ⟨tok, 0, 0⟩
  match submitBody env 0 s0 with
  | (some r, s) => (r, s)
  | (none, s) =>
    match submitBody env 1 s with
    | (some r, s) => (r, s)
    | (none, s) => (.error none "Max retries exceeded", s)

-- ===========================================================================
-- src/api_mock.py : the second (minimal) mock capability
-- ===========================================================================

/-- A status dict of the second mock capability: success, or an error with a
message. -/
inductive Mock2Result
  | success
  | error (message : String)
deriving Repr, DecidableEq

/-- src/api_mock.py MockTikTokAPI.ensure_token: a bare presence check on the
access token — no expiry, no refresh attempt. -/
def mock2_ensure_token (access_token : Option String) : Mock2Result :=
  if pyTruthy access_token = false then .error "Not Connected" else .success

/-- src/api_mock.py refresh_access_token: unconditionally succeeds,
installing the fixed refreshed token (returned here as the pair of the
boolean result and the new access token). -/
def mock2_refresh_access_token : Bool × Option String :=
  (true, some "mock_refreshed_token")

/-- src/api_mock.py ensure_token paired with the number of
refresh_access_token calls its body makes: the method body contains no
refresh call, so that count is 0 on every path. -/
def mock2_ensure_token_run (access_token : Option String) : Mock2Result × Nat :=
  (mock2_ensure_token access_token, 0)

/-- src/api_mock.py validate_music_id over the fixed music db: uploaded
references (mock_up prefix) always validate; known ids validate according to
the db flag; unknown ids are Not Found. -/
def mock2_validate_music_id (music_db : List (String × Bool)) (music_id : String) :
    Mock2Result :=
  if pyStartsWith music_id "mock_up" = true then .success
  else
    match music_db.lookup music_id with
    | some true => .success
    | some false => .error "Copyright Error"
    | none => .error "Not Found"

/-- src/api_mock.py upload_music: a fresh reference mock_up_ plus a random
hex suffix. -/
def mock2_upload_music (hexSuffix : String) : String :=
  "mock_up_" ++ hexSuffix

-- ===========================================================================
-- mock_api.py : MockTikTokAPI — the primary simulated capability
-- ===========================================================================

/-- The state of the primary simulated capability. -/
structure MockState where
  valid_music_ids : List String
  uploaded_music : List (String × String)
  simulate_failures : Bool
deriving Repr, DecidableEq

/-- mock_api.py MockTikTokAPI.__init__ with the given failure switch. -/
def mockInit (simulate_failures : Bool) : MockState :=
  ⟨["12345", "67890", "11111", "22222", "33333"], [], simulate_failures⟩

/-- mock_api.py validate_music_id.  failDraw models the random draw
random.random() < failure_rate; the induced failure fires only when failure
simulation is on.  A music id validates when it is in the simulated database
or carries the UPLOAD_ prefix. -/
def mock_validate_music_id (st : MockState) (music_id : String) (failDraw : Bool) :
    CallOutcome MusicData :=
  if st.simulate_failures = true ∧ failDraw = true then
    .err "INVALID_TOKEN"
  else if music_id ∈ st.valid_music_ids ∨ pyStartsWith music_id "UPLOAD_" = true then
    .ok ⟨music_id, "Sample Track " ++ music_id, "Mock Artist", 30, "Pop"⟩
  else
    .err "MUSIC_NOT_FOUND"

/-- mock_api.py upload_music.  randInt models random.randint(10000, 99999);
the new reference UPLOAD_ plus that number is recorded in uploaded_music and
appended to the valid id list, and its title is the last path segment of the
file path. -/
def mock_upload_music (st : MockState) (file_path : String) (failDraw : Bool)
    (randInt : Nat) : CallOutcome UploadData × MockState :=
  if st.simulate_failures = true ∧ failDraw = true then
    (.err "GEO_RESTRICTED", st)
  else
    let new_music_id := "UPLOAD_" ++ toString randInt
    let st2 : MockState :=
      { valid_music_ids := st.valid_music_ids ++ [new_music_id]
        uploaded_music := st.uploaded_music ++ [(new_music_id, file_path)]
        simulate_failures := st.simulate_failures }
    (.ok ⟨new_music_id, lastSegment "\\" (lastSegment "/" file_path), "ready", 30⟩, st2)

-- ===========================================================================
-- Claim theorems
-- ===========================================================================

/-- C2: the claim states that for a Conversions configuration with every
other field individually valid, validation reports a music violation iff the
music reference is absent or blank.  The code violates this: when the
music_id key is not supplied at all (the orchestrator ad_config dict holds no
key for an unset field), pydantic fills the None default without running
validate_music_logic, so the Conversions configuration below validates with
no violation at all, contradicting the claim and the validator docstring.
The remaining conjuncts show the nearby behaviour: an explicitly supplied
null does produce the music-required violation, a blank reference produces a
violation under either objective, and an absent reference under Traffic
passes. -/
theorem C2_music_rule_bypassed_on_absent_key :
    AdConfigValidate ⟨some "Summer Sale", some "Conversions", some "Hello", some "Buy", none⟩
      = .ok ⟨"Summer Sale", "Conversions", "Hello", "Buy", none⟩
    ∧ AdConfigValidate ⟨some "Summer Sale", some "Conversions", some "Hello", some "Buy", some none⟩
      = .error [⟨"music_id", "Music is REQUIRED when objective is \x27Conversions\x27. Please provide a music ID or upload custom music."⟩]
    ∧ AdConfigValidate ⟨some "Summer Sale", some "Conversions", some "Hello", some "Buy", some (some "   ")⟩
      = .error [⟨"music_id", "Music ID cannot be empty"⟩]
    ∧ AdConfigValidate ⟨some "Summer Sale", some "Traffic", some "Hello", some "Buy", some (some "   ")⟩
      = .error [⟨"music_id", "Music ID cannot be empty"⟩]
    ∧ AdConfigValidate ⟨some "Summer Sale", some "Traffic", some "Hello", some "Buy", none⟩
      = .ok ⟨"Summer Sale", "Traffic", "Hello", "Buy", none⟩ := by
  refine ⟨?_, ?_, ?_, ?_, ?_⟩ <;> decide

/-- C7: ad_text of length exactly 100 passes and length 101 fails, but the
violation message does not name the current length: the Field max_length=100
constraint fires first with the pydantic builtin message, and the custom
validator whose message names the current length (last conjunct) never runs
on over-long input — the builtin message mentions neither 101 nor the
wording that the own test of the repository expects. -/
theorem C7_ad_text_boundary_message :
    AdConfigValidate ⟨some "Test Campaign", some "Traffic",
        some (String.mk (List.replicate 100 'A')), some "Click", none⟩
      = .ok ⟨"Test Campaign", "Traffic", String.mk (List.replicate 100 'A'), "Click", none⟩
    ∧ AdConfigValidate ⟨some "Test Campaign", some "Traffic",
        some (String.mk (List.replicate 101 'A')), some "Click", none⟩
      = .error [⟨"ad_text", "ensure this value has at most 100 characters"⟩]
    ∧ pyContains "ensure this value has at most 100 characters" "101" = false
    ∧ pyContains "ensure this value has at most 100 characters" "cannot exceed" = false
    ∧ validate_ad_text (String.mk (List.replicate 101 'A'))
      = .error "Ad text cannot exceed 100 characters (current: 101)" := by
  refine ⟨?_, ?_, ?_, ?_, ?_⟩ <;> decide

/-- C5: the five known error codes map exactly to the fixed table, and every
unmapped code falls through (without raising — interpret is total) to the
default row with retryable true, severity medium, and an explanation that
contains the original code. -/
theorem C5_error_classifier_table :
    (interpret "INVALID_TOKEN").retryable = true
    ∧ (interpret "INVALID_TOKEN").severity = "medium"
    ∧ (interpret "INSUFFICIENT_PERMISSIONS").retryable = false
    ∧ (interpret "INSUFFICIENT_PERMISSIONS").severity = "high"
    ∧ (interpret "MUSIC_NOT_FOUND").retryable = false
    ∧ (interpret "MUSIC_NOT_FOUND").severity = "low"
    ∧ (interpret "INVALID_MUSIC_ID").retryable = false
    ∧ (interpret "INVALID_MUSIC_ID").severity = "medium"
    ∧ (interpret "GEO_RESTRICTED").retryable = false
    ∧ (interpret "GEO_RESTRICTED").severity = "high"
    ∧ ∀ code : String, code ≠ "INVALID_TOKEN" → code ≠ "INSUFFICIENT_PERMISSIONS" →
        code ≠ "MUSIC_NOT_FOUND" → code ≠ "INVALID_MUSIC_ID" → code ≠ "GEO_RESTRICTED" →
        interpret code = defaultErrorInfo code
        ∧ (interpret code).retryable = true
        ∧ (interpret code).severity = "medium"
        ∧ ∃ p, (interpret code).explanation = p ++ code := by
  refine ⟨by decide, by decide, by decide, by decide, by decide,
    by decide, by decide, by decide, by decide, by decide, ?_⟩
  intro code h1 h2 h3 h4 h5
  have hd : interpret code = defaultErrorInfo code := by
    unfold interpret
    rw [if_neg h1, if_neg h2, if_neg h3, if_neg h4, if_neg h5]
  refine ⟨hd, ?_, ?_, ?_⟩
  · rw [hd]; rfl
  · rw [hd]; rfl
  · exact ⟨"An unexpected error occurred: ", by rw [hd]; rfl⟩

/-- C5 witness: the classifier applied to a concrete unmapped code. -/
theorem C5_error_classifier_table_witness :
    interpret "UNKNOWN_ERROR_12345" = defaultErrorInfo "UNKNOWN_ERROR_12345"
    ∧ (interpret "UNKNOWN_ERROR_12345").retryable = true
    ∧ (interpret "UNKNOWN_ERROR_12345").severity = "medium"
    ∧ ∃ p, (interpret "UNKNOWN_ERROR_12345").explanation = p ++ "UNKNOWN_ERROR_12345" :=
  C5_error_classifier_table.2.2.2.2.2.2.2.2.2.2 "UNKNOWN_ERROR_12345"
    (by decide) (by decide) (by decide) (by decide) (by decide)

/-- C3 counterexample: in the AdAgent variant (src/agent.py lines 60-61) the
merge loop stores every present key with no null check, so merging a delta
whose music reference entry is an explicit null after the field was set to X
clears the field instead of leaving it X — the claim fails on this
implementation. -/
theorem C3_counterexample_null_clears_field :
    agentMerge (fun _ => some (some "X"))
        (fun k => if k = "music_id" then some none else none) "music_id"
      ≠ some (some "X") := by
  decide

/-- C3 amended: in the ConversationManager (agent.py lines 366-371) the merge
is field-wise last-write-wins on present non-null delta values, and null or
absent delta entries keep the previous value of every field; in the AdAgent
variant only absent keys are no-ops — a present entry overwrites even when
it is an explicit null (so a set field can be cleared there). -/
theorem C3_merge_semantics :
    (∀ (old : Option String) (v : String),
      mergeValue old none = old
      ∧ mergeValue old (some none) = old
      ∧ mergeValue old (some (some v)) = some v)
    ∧ (∀ (cfg : CMConfig) (d : StateDelta),
        (mergeState cfg d).campaign_name = mergeValue cfg.campaign_name d.campaign_name
        ∧ (mergeState cfg d).objective = mergeValue cfg.objective d.objective
        ∧ (mergeState cfg d).ad_text = mergeValue cfg.ad_text d.ad_text
        ∧ (mergeState cfg d).cta = mergeValue cfg.cta d.cta
        ∧ (mergeState cfg d).music_id = mergeValue cfg.music_id d.music_id)
    ∧ (∀ (data delta : String → Option (Option String)) (k : String),
        (delta k = none → agentMerge data delta k = data k)
        ∧ ∀ v, delta k = some v → agentMerge data delta k = some v) := by
  refine ⟨fun old v => ⟨rfl, rfl, rfl⟩, fun cfg d => ⟨rfl, rfl, rfl, rfl, rfl⟩,
    fun data delta k => ⟨fun h => ?_, fun v h => ?_⟩⟩
  · simp [agentMerge, h]
  · simp [agentMerge, h]

/-- C3 witness: the merge facts applied at concrete dicts, discharging the
delta-shape hypotheses. -/
theorem C3_merge_semantics_witness :
    agentMerge (fun _ => some (some "X")) (fun _ => none) "music_id" = some (some "X")
    ∧ agentMerge (fun _ => none) (fun _ => some (some "Y")) "campaign_name" = some (some "Y") :=
  ⟨(C3_merge_semantics.2.2 (fun _ => some (some "X")) (fun _ => none) "music_id").1 rfl,
   (C3_merge_semantics.2.2 (fun _ => none) (fun _ => some (some "Y")) "campaign_name").2
     (some "Y") rfl⟩

/-- C8 counterexample: the claim states that malformed collaborator output
triggers exactly one retry.  In AdAgent.process_message a json.loads failure
(JSONDecodeError) is not a jsonschema ValidationError, so it falls to the
generic handler which returns the fallback immediately: zero retries occur. -/
theorem C8_counterexample_malformed_no_retry :
    adAgentProcess (.malformed "Expecting value: line 1 column 1 (char 0)")
        (fun _ => .valid ⟨"ok", "ok", "NONE"⟩)
      = (⟨"Fail", "System Error: Expecting value: line 1 column 1 (char 0)", "NONE"⟩, 0)
    ∧ (adAgentProcess (.malformed "Expecting value: line 1 column 1 (char 0)")
        (fun _ => .valid ⟨"ok", "ok", "NONE"⟩)).2 ≠ 1 := by
  exact ⟨rfl, by decide⟩

/-- C8 amended: a schema-invalid response triggers exactly one retry, with
the schema-error description appended to the system context of the retried
call; a second schema failure yields the deterministic validation fallback
(action NONE); malformed output and collaborator exceptions skip the retry
and yield the generic fallback at once; the LLMClient variant never retries
and maps any failure to its apology response with action collect — in no
case is a collaborator failure re-raised. -/
theorem C8_retry_and_fallback :
    ∀ (e e2 : String) (d : AgentResp) (out2 : String → LMOut),
      adAgentProcess (.valid d) out2 = (d, 0)
      ∧ (adAgentProcess (.schemaInvalid e) out2).2 = 1
      ∧ (out2 (retryContext e) = .valid d →
          adAgentProcess (.schemaInvalid e) out2 = (d, 1))
      ∧ (out2 (retryContext e) = .schemaInvalid e2 →
          adAgentProcess (.schemaInvalid e) out2 = (agentValidationFallback, 1))
      ∧ (out2 (retryContext e) = .malformed e2 →
          adAgentProcess (.schemaInvalid e) out2 = (agentGenericFallback e2, 1))
      ∧ adAgentProcess (.malformed e) out2 = (agentGenericFallback e, 0)
      ∧ adAgentProcess (.raises e) out2 = (agentGenericFallback e, 0)
      ∧ ∀ ctx : CMConfig, get_response ctx (.raises e) =
          { message := some ("I apologize, but I encountered an error: " ++ e ++ ". Let\x27s try again.")
            reasoning := some ("LLM error: " ++ e)
            state := some ctx.toDelta
            action := some "collect"
            errors := some [e] } := by
  intro e e2 d out2
  refine ⟨rfl, ?_, fun h => ?_, fun h => ?_, fun h => ?_, rfl, rfl, fun ctx => rfl⟩
  · simp only [adAgentProcess]
    cases out2 (retryContext e) <;> rfl
  · simp [adAgentProcess, h]
  · simp [adAgentProcess, h]
  · simp [adAgentProcess, h]

/-- C8 witness: the retry behaviour at concrete collaborator outcomes,
discharging the outcome hypotheses. -/
theorem C8_retry_and_fallback_witness :
    adAgentProcess (.schemaInvalid "missing message_to_user")
        (fun _ => .valid ⟨"t", "Hello", "NONE"⟩) = (⟨"t", "Hello", "NONE"⟩, 1)
    ∧ adAgentProcess (.schemaInvalid "missing message_to_user")
        (fun _ => .schemaInvalid "missing action") = (agentValidationFallback, 1) :=
  ⟨(C8_retry_and_fallback "missing message_to_user" "x" ⟨"t", "Hello", "NONE"⟩
      (fun _ => .valid ⟨"t", "Hello", "NONE"⟩)).2.2.1 rfl,
   (C8_retry_and_fallback "missing message_to_user" "missing action" ⟨"t", "Hello", "NONE"⟩
      (fun _ => .schemaInvalid "missing action")).2.2.2.1 rfl⟩

/-- C6 counterexample: the claim also covers the mock capability
(src/api_mock.py), whose ensure_token on a missing credential returns the
not-connected Failure immediately with zero refresh_access_token calls, even
though its refresh_access_token unconditionally succeeds — so on this input
the claim (one refresh attempt, and Success because the refresh succeeds)
fails: the result is not Success and the refresh count is not one. -/
theorem C6_counterexample_mock_never_refreshes :
    mock2_ensure_token_run none = (.error "Not Connected", 0)
    ∧ mock2_refresh_access_token = (true, some "mock_refreshed_token")
    ∧ (mock2_ensure_token_run none).2 ≠ 1
    ∧ (mock2_ensure_token_run none).1 ≠ .success := by
  exact ⟨rfl, rfl, by decide, by decide⟩

/-- C6 amended: in the live capability, ensure_token returns Success with
the state unchanged and no refresh call whenever a truthy access token
exists and the current time is strictly more than the 300-second buffer
before expiry; otherwise it makes exactly one refresh_access_token call,
returning Success exactly when that refresh succeeds and the fixed
credential-expired failure when it does not.  The mock variant is only a
presence check: with a credential present it returns Success with no side
effects, but with none it returns the not-connected Failure at once with
zero refresh attempts, although its refresh_access_token always succeeds. -/
theorem C6_ensure_credential :
    (∀ (st : TokenState) (now : Int) (o : RefreshOutcome),
      (pyTruthy st.access_token = true → now < st.expires_at - 300 →
        ensure_token st now o = (.success, st, 0))
      ∧ (¬ (pyTruthy st.access_token = true ∧ now < st.expires_at - 300) →
          (ensure_token st now o).2.2 = 1
          ∧ ((ensure_token st now o).1 = .success ↔ (refresh_access_token st now o).1 = true)
          ∧ ((refresh_access_token st now o).1 = false →
              (ensure_token st now o).1
                = .error 401 "Session expired. Please reconnect TikTok.")))
    ∧ (∀ access_token : Option String, pyTruthy access_token = true →
        mock2_ensure_token_run access_token = (.success, 0))
    ∧ (∀ access_token : Option String, pyTruthy access_token = false →
        mock2_ensure_token_run access_token = (.error "Not Connected", 0))
    ∧ mock2_refresh_access_token = (true, some "mock_refreshed_token") := by
  refine ⟨fun st now o => ⟨?_, ?_⟩, fun access_token h => ?_, fun access_token h => ?_, rfl⟩
  · intro h1 h2
    unfold ensure_token
    rw [if_pos ⟨h1, h2⟩]
  · intro h
    unfold ensure_token
    rw [if_neg h]
    rcases hr : (refresh_access_token st now o).1 with _ | _
    · simp [hr]
    · simp [hr]
  · unfold mock2_ensure_token_run mock2_ensure_token
    rw [h]
    rfl
  · unfold mock2_ensure_token_run mock2_ensure_token
    rw [h]
    rfl

/-- C6 witness: the fresh-credential path and the failed-refresh path of the
live capability, and both mock paths, at concrete states. -/
theorem C6_ensure_credential_witness :
    ensure_token ⟨some "tok", some "ref", 1000⟩ 0 .fail = (.success, ⟨some "tok", some "ref", 1000⟩, 0)
    ∧ (ensure_token ⟨none, none, 0⟩ 0 .fail).2.2 = 1
    ∧ (ensure_token ⟨none, none, 0⟩ 0 .fail).1
        = .error 401 "Session expired. Please reconnect TikTok."
    ∧ mock2_ensure_token_run (some "mock_token") = (.success, 0)
    ∧ mock2_ensure_token_run none = (.error "Not Connected", 0) :=
  ⟨(C6_ensure_credential.1 ⟨some "tok", some "ref", 1000⟩ 0 .fail).1 (by decide) (by decide),
   ((C6_ensure_credential.1 ⟨none, none, 0⟩ 0 .fail).2 (by decide)).1,
   ((C6_ensure_credential.1 ⟨none, none, 0⟩ 0 .fail).2 (by decide)).2.2 (by decide),
   C6_ensure_credential.2.1 (some "mock_token") (by decide),
   C6_ensure_credential.2.2.1 none (by decide)⟩

/-- startsWithL is preserved by appending anything after a list that already
starts with the prefix. -/
theorem startsWithL_append (pre : List Char) :
    ∀ (l tail : List Char), startsWithL l pre = true → startsWithL (l ++ tail) pre = true := by
  induction pre with
  | nil => intro l tail _; cases l ++ tail <;> rfl
  | cons p ps ih =>
    intro l tail h
    cases l with
    | nil => simp [startsWithL] at h
    | cons c cs =>
      simp only [startsWithL, Bool.and_eq_true] at h
      simp only [List.cons_append, startsWithL, Bool.and_eq_true]
      exact ⟨h.1, ih cs tail h.2⟩

/-- C9: with failure injection disabled, upload_music always succeeds with a
fresh UPLOAD_ reference, and validating that reference against the resulting
state immediately succeeds (it is both appended to the valid-id list and
matches the UPLOAD_ prefix rule); likewise in the second mock capability a
freshly uploaded mock_up_ reference always validates. -/
theorem C9_upload_then_validate :
    (∀ (st : MockState) (file_path : String) (d1 d2 : Bool) (randInt : Nat),
      st.simulate_failures = false →
      ∃ data st2, mock_upload_music st file_path d1 randInt = (.ok data, st2)
        ∧ ∃ md, mock_validate_music_id st2 data.music_id d2 = .ok md)
    ∧ (∀ (hexSuffix : String) (music_db : List (String × Bool)),
        mock2_validate_music_id music_db (mock2_upload_music hexSuffix) = .success) := by
  constructor
  · intro st file_path d1 d2 randInt h
    refine ⟨⟨"UPLOAD_" ++ toString randInt, lastSegment "\\" (lastSegment "/" file_path),
      "ready", 30⟩,
      { valid_music_ids := st.valid_music_ids ++ ["UPLOAD_" ++ toString randInt]
        uploaded_music := st.uploaded_music ++ [("UPLOAD_" ++ toString randInt, file_path)]
        simulate_failures := st.simulate_failures }, ?_, ?_⟩
    · unfold mock_upload_music
      rw [if_neg]
      intro hc
      rw [h] at hc
      exact absurd hc.1 (by decide)
    · refine ⟨⟨"UPLOAD_" ++ toString randInt, "Sample Track " ++ ("UPLOAD_" ++ toString randInt),
        "Mock Artist", 30, "Pop"⟩, ?_⟩
      unfold mock_validate_music_id
      rw [if_neg, if_pos]
      · exact Or.inl (by simp)
      · intro hc
        rw [h] at hc
        exact absurd hc.1 (by decide)
  · intro hexSuffix music_db
    unfold mock2_validate_music_id mock2_upload_music
    rw [if_pos]
    show pyStartsWith ("mock_up_" ++ hexSuffix) "mock_up" = true
    unfold pyStartsWith
    have hdata : ("mock_up_" ++ hexSuffix).data = "mock_up_".data ++ hexSuffix.data := by
      cases hexSuffix; rfl
    rw [hdata]
    exact startsWithL_append _ _ _ (by decide)

/-- C9 witness: a concrete upload followed by validation of the returned
reference, with the failure switch off. -/
theorem C9_upload_then_validate_witness :
    ∃ data st2, mock_upload_music (mockInit false) "/path/to/custom.mp3" false 10000
        = (.ok data, st2)
      ∧ ∃ md, mock_validate_music_id st2 data.music_id false = .ok md :=
  C9_upload_then_validate.1 (mockInit false) "/path/to/custom.mp3" false false 10000 rfl

/-- C10: every ConversationManager.process_message turn appends exactly two
entries to the history — the user message, then one assistant message whose
content is the returned string — on every path, including an LLM failure
(absorbed by get_response), a missing message key (KeyError caught by the
outer handler), and an exception raised by a dispatched action handler. -/
theorem C10_history_two_entries :
    ∀ (cm : CMState) (user_msg : String) (llm : LLMRaw) (env : ApiEnv),
      (process_message cm user_msg llm env).2.1.messages
        = cm.messages ++ [⟨"user", user_msg⟩,
            ⟨"assistant", (process_message cm user_msg llm env).1⟩] := by
  intro cm user_msg llm env
  unfold process_message
  rcases tryBody cm.ad_config llm env with ⟨r, cfg, counts⟩
  cases r <;> simp

/-- Each iteration of the submit_ad retry loop performs at most one post. -/
theorem submitBody_postCalls_le (env : SubmitEnv) (a : Nat) (s : SubmitRun) :
    (submitBody env a s).2.postCalls ≤ s.postCalls + 1 := by
  unfold submitBody doEnsure doRefresh
  dsimp only
  split
  · split
    · split <;> dsimp only <;> omega
    · dsimp only; omega
  · split
    · split
      · dsimp only; omega
      · split
        · split <;> dsimp only <;> omega
        · dsimp only; omega
    · split <;> dsimp only <;> omega

/-- submit_ad posts at most twice: the loop runs at most two iterations. -/
theorem submit_ad_postCalls_le (env : SubmitEnv) (tok : TokenState) :
    (submit_ad env tok).2.postCalls ≤ 2 := by
  unfold submit_ad
  have h0 := submitBody_postCalls_le env 0 ⟨tok, 0, 0⟩
  rcases hb : submitBody env 0 ⟨tok, 0, 0⟩ with ⟨r0, s1⟩
  rw [hb] at h0
  dsimp only at h0
  cases r0 with
  | some r => simp [hb]; omega
  | none =>
    have h1 := submitBody_postCalls_le env 1 s1
    rcases hb1 : submitBody env 1 s1 with ⟨r1, s2⟩
    rw [hb1] at h1
    dsimp only at h1
    cases r1 <;> simp [hb, hb1] <;> omega

/-- C4: when the pre-check passes, the first posted attempt is rejected with
code 401, the single refresh succeeds (yielding a truthy token valid beyond
the buffer), and the second attempt succeeds, submit_ad returns Success with
the ad id of the second attempt after exactly one refresh call and two posts; and
on every input whatsoever the number of posted submit attempts is bounded by
two — the retry loop cannot run unbounded. -/
theorem C4_submit_single_refresh_retry :
    (∀ (env : SubmitEnv) (tok : TokenState) (a2 rt : String) (rt2 : Option String)
        (e2 : Int) (x adId m m2 : String),
      pyTruthy tok.access_token = true →
      env.now < tok.expires_at - 300 →
      tok.refresh_token = some rt →
      env.refreshOutcomes 0 = .ok a2 rt2 e2 →
      300 < e2 →
      a2 ≠ "" →
      env.postOutcomes 0 = .resp 401 x m →
      env.postOutcomes 1 = .resp 0 adId m2 →
      submit_ad env tok = (.success adId, ⟨⟨some a2, rt2, env.now + e2⟩, 1, 2⟩))
    ∧ (∀ (env : SubmitEnv) (tok : TokenState), (submit_ad env tok).2.postCalls ≤ 2) := by
  constructor
  · intro env tok a2 rt rt2 e2 x adId m m2 h1 h2 h3 h4 h5 h6 h7 h8
    have hen0 : ensure_token tok env.now (env.refreshOutcomes 0) = (.success, tok, 0) := by
      unfold ensure_token
      rw [if_pos ⟨h1, h2⟩]
    have hrefresh0 : refresh_access_token tok env.now (env.refreshOutcomes 0)
        = (true, ⟨some a2, rt2, env.now + e2⟩) := by
      unfold refresh_access_token
      rw [h3, h4]
      rfl
    have hen1 : ensure_token ⟨some a2, rt2, env.now + e2⟩ env.now (env.refreshOutcomes 1)
        = (.success, ⟨some a2, rt2, env.now + e2⟩, 0) := by
      unfold ensure_token
      rw [if_pos]
      constructor
      · simp [pyTruthy, h6]
      · dsimp only
        omega
    have hbody0 : submitBody env 0 ⟨tok, 0, 0⟩
        = (none, ⟨⟨some a2, rt2, env.now + e2⟩, 1, 1⟩) := by
      simp only [submitBody, doEnsure, doRefresh, hen0, h7, hrefresh0]
      norm_num
    have hbody1 : submitBody env 1 ⟨⟨some a2, rt2, env.now + e2⟩, 1, 1⟩
        = (some (.success adId), ⟨⟨some a2, rt2, env.now + e2⟩, 1, 2⟩) := by
      simp only [submitBody, doEnsure, hen1, h8]
      norm_num
    simp only [submit_ad, hbody0, hbody1]
  · exact submit_ad_postCalls_le

/-- C4 witness: a concrete run — valid token, 401 on the first post, one
successful refresh, success on the second post. -/
theorem C4_submit_single_refresh_retry_witness :
    submit_ad
        ⟨0, fun _ => .ok "fresh_token" (some "fresh_refresh") 86400,
          fun n => if n = 0 then .resp 401 "" "Access token has expired" else .resp 0 "AD_OK" ""⟩
        ⟨some "tok", some "ref", 1000⟩
      = (.success "AD_OK", ⟨⟨some "fresh_token", some "fresh_refresh", 0 + 86400⟩, 1, 2⟩) :=
  C4_submit_single_refresh_retry.1
    ⟨0, fun _ => .ok "fresh_token" (some "fresh_refresh") 86400,
      fun n => if n = 0 then .resp 401 "" "Access token has expired" else .resp 0 "AD_OK" ""⟩
    ⟨some "tok", some "ref", 1000⟩
    "fresh_token" "ref" (some "fresh_refresh") 86400 "" "AD_OK" "Access token has expired" ""
    (by decide) (by decide) rfl rfl (by decide) (by decide) rfl rfl

/-- The C1 scenario configuration: objective Conversions, all other fields
set and valid, no music reference (the ad_config dict has no music_id key). -/
def c1Config : CMConfig :=
  ⟨some "Summer Sale", some "Conversions", some "Hello there!", some "Shop Now", none⟩

/-- The C1 collaborator response dispatching the submit action. -/
def c1Llm : LLMRaw :=
  .ok ⟨some "Submitting your ad now...", some "All fields collected", some emptyDelta,
    some "submit", some []⟩

/-- The C1 capability environment: create_ad would answer with a success. -/
def c1Env : ApiEnv :=
  ⟨.err "MUSIC_NOT_FOUND", .err "GEO_RESTRICTED",
    .ok ⟨"AD_123456", "CAMP_654321", "pending_review", "2026-01-31T12:00:00Z",
      "Summer Sale", "Conversions"⟩⟩

set_option maxRecDepth 4000 in
/-- C1: the claim says submitting with objective Conversions and no music
reference yields a message enumerating the music violation and no capability
call.  The code violates this: the orchestrator ad_config has no music_id
key, pydantic fills the None default without running validate_music_logic,
the snapshot validates cleanly (last conjunct), create_ad IS called (one
capability call) and the returned message is the submission-success message,
not a validation-failure message. -/
theorem C1_submit_conversions_no_music_calls_api :
    (process_message ⟨[], c1Config⟩ "please submit" c1Llm c1Env).2.2.createCalls = 1
    ∧ pyContains (process_message ⟨[], c1Config⟩ "please submit" c1Llm c1Env).1
        "SUCCESS! Your TikTok ad has been created!" = true
    ∧ pyContains (process_message ⟨[], c1Config⟩ "please submit" c1Llm c1Env).1
        "Validation Failed" = false
    ∧ AdConfigValidate c1Config.toInput
      = .ok ⟨"Summer Sale", "Conversions", "Hello there!", "Shop Now", none⟩ := by
  refine ⟨?_, ?_, ?_, ?_⟩ <;> decide

end TikTokAds
